import Mathlib

/-!
Verification of the answer-relevancy metric's prompt-template builders
(`deepeval/metrics/answer_relevancy/template.py`) and of the surrounding
three-stage judgment pipeline (statement extraction, verdict classification,
score aggregation, reason composition) described by the design document.

The three prompt builders are embedded at the `String` level: each Python
f-string is the concatenation of its constant segments (transcribed
byte-for-byte from the source, with key instruction sentences exposed as
named segments) and its interpolated arguments.  The score aggregator and
the verdict-cardinality check live outside the staged source files, so they
are modelled from the specification's words and marked as such.
-/

/-- `needle` occurs contiguously inside `hay`. -/
def containsSub (hay needle : String) : Prop :=
  ∃ p s : String, hay = p ++ (needle ++ s)

theorem string_append_assoc (a b c : String) : a ++ b ++ c = a ++ (b ++ c) := by
  cases a with
  | mk da =>
    cases b with
    | mk db =>
      cases c with
      | mk dc =>
        show String.mk (da ++ db ++ dc) = String.mk (da ++ (db ++ dc))
        rw [List.append_assoc]

namespace AnswerRelevancyTemplate

def stmtInstr : String :=
  "only return in valid and parseable JSON format, with the \"statements\" key mapping to a list of strings"

def stmtPreA : String :=
  "Given the text, breakdown and generate a list of statements presented. Ambiguous statements and single words can be considered as statements, but only if outside of a coherent statement.\n\nExample:\nExample text: \nOur new laptop model features a high-resolution Retina display for crystal-clear visuals. It also includes a fast-charging battery, giving you up to 12 hours of usage on a single charge. For security, we’ve added fingerprint authentication and an encrypted SSD. Plus, every purchase comes with a one-year warranty and 24/7 customer support.\n\n\x7b\n    \"statements\": [\n        \"The new laptop model has a high-resolution Retina display.\",\n        \"It includes a fast-charging battery with up to 12 hours of usage.\",\n        \"Security features include fingerprint authentication and an encrypted SSD.\",\n        \"Every purchase comes with a one-year warranty.\",\n        \"24/7 customer support is included.\"\n    ]\n\x7d\n===== END OF EXAMPLE ======\n        \n**\nIMPORTANT: Please make sure to "

def stmtPreB : String :=
  ". No words or explanation are needed. Ensure all strings are closed appropriately. Repair any invalid JSON before you output it.\n**\n\nText:\n"

def stmtSuffix : String :=
  "\n\nJSON:\n"

def verdInstr : String :=
  "the number of \x27verdicts\x27 SHOULD BE STRICTLY EQUAL to the number of \x60statements\x60"

def verdPreA : String :=
  "For the provided list of statements, determine whether each statement is relevant to address the input.\nPlease generate a list of JSON with two keys: \x60verdict\x60 and \x60reason\x60.\nThe \x27verdict\x27 key should STRICTLY be either a \x27yes\x27, \x27idk\x27 or \x27no\x27. Answer \x27yes\x27 if the statement is relevant to addressing the original input, \x27no\x27 if the statement is irrelevant, and \x27idk\x27 if it is ambiguous (eg., not directly relevant but could be used as a supporting point to address the input).\nThe \x27reason\x27 is the reason for the verdict.\nProvide a \x27reason\x27 ONLY if the answer is \x27no\x27. \nThe provided statements are statements made in the actual output.\n\n**\nIMPORTANT: Please make sure to only return in valid and parseable JSON format, with the \x27verdicts\x27 key mapping to a list of JSON objects. Ensure all strings are closed appropriately. Repair any invalid JSON before you output it.\nExample input: \nWhat features does the new laptop have?\n\nExample:\nExample statements: \n[\n    \"The new laptop model has a high-resolution Retina display.\",\n    \"It includes a fast-charging battery with up to 12 hours of usage.\",\n    \"Security features include fingerprint authentication and an encrypted SSD.\",\n    \"Every purchase comes with a one-year warranty.\",\n    \"24/7 customer support is included.\",\n    \"Pineapples taste great on pizza.\"\n]\n\nExample JSON:\n\x7b\n    \"verdicts\": [\n        \x7b\n            \"verdict\": \"yes\"\n        \x7d,\n        \x7b\n            \"verdict\": \"yes\"\n        \x7d,\n        \x7b\n            \"verdict\": \"yes\"\n        \x7d,\n        \x7b\n            \"verdict\": \"no\",\n            \"reason\": \"A one-year warranty is a purchase benefit, not a feature of the laptop itself.\"\n        \x7d,\n        \x7b\n            \"verdict\": \"no\",\n            \"reason\": \"Customer support is a service, not a feature of the laptop.\"\n        \x7d,\n        \x7b\n            \"verdict\": \"no\",\n            \"reason\": \"The statement about pineapples on pizza is completely irrelevant to the input, which asks about laptop features.\"\n        \x7d\n    ]  \n\x7d\n===== END OF EXAMPLE ======\n\nSince you are going to generate a verdict for each statement, "

def verdPreB : String :=
  ".\n**          \n\nInput:\n"

def verdMid : String :=
  "\n\nStatements:\n"

def verdSuffix : String :=
  "\n\nJSON:\n"

def reasInstr : String :=
  "only return in JSON format, with the \x27reason\x27 key providing the reason"

def reasPreA : String :=
  "Given the answer relevancy score, the list of reasons of irrelevant statements made in the actual output, and the input, provide a CONCISE reason for the score. Explain why it is not higher, but also why it is at its current score.\nThe irrelevant statements represent things in the actual output that is irrelevant to addressing whatever is asked/talked about in the input.\nIf there is nothing irrelevant, just say something positive with an upbeat encouraging tone (but don\x27t overdo it otherwise it gets annoying).\n\n\n**\nIMPORTANT: Please make sure to "

def reasPreB : String :=
  ". Ensure all strings are closed appropriately. Repair any invalid JSON before you output it.\n\nExample:\nExample JSON:\n\x7b\n    \"reason\": \"The score is <answer_relevancy_score> because <your_reason>.\"\n\x7d\n===== END OF EXAMPLE ======\n**\n\n\nAnswer Relevancy Score:\n"

def reasMid1 : String :=
  "\n\nReasons why the score can\x27t be higher based on irrelevant statements in the actual output:\n"

def reasMid2 : String :=
  "\n\nInput:\n"

def reasSuffix : String :=
  "\n\nJSON:\n"

/-- One character of CPython's `repr` of a string, under quote character `q`:
the backslash, the chosen quote, and the control characters newline, carriage
return and tab are escaped; other (printable) characters stand for themselves. -/
def pyCharEsc (q : Char) (c : Char) : String :=
  if c = '\\' then "\\\\"
  else if c = q then String.singleton '\\' ++ String.singleton q
  else if c = '\n' then "\\n"
  else if c = '\r' then "\\r"
  else if c = '\t' then "\\t"
  else String.singleton c

/-- CPython's `repr` of a string of printable characters: single-quoted, unless
the string contains a single quote and no double quote, in which case it is
double-quoted; the body is escaped per `pyCharEsc`. -/
def pyStrRepr (s : String) : String :=
  let q : Char := if s.data.contains '\x27' && !(s.data.contains '"') then '"' else '\x27'
  String.singleton q ++ String.join (s.data.map (pyCharEsc q)) ++ String.singleton q

/-- CPython's `str` of a list of strings, as interpolated by an f-string:
`repr` of each element, comma-space separated, in square brackets. -/
def pyReprList (xs : List String) : String :=
  "[" ++ String.intercalate ", " (xs.map pyStrRepr) ++ "]"

/-- `AnswerRelevancyTemplate.generate_statements`: the extraction prompt is the
fixed template with `actual_output` interpolated once near the end. -/
def generate_statements (actual_output : String) : String :=
  stmtPreA ++ (stmtInstr ++ (stmtPreB ++ (actual_output ++ stmtSuffix)))

/-- `AnswerRelevancyTemplate.generate_verdicts`: the classification prompt is
the fixed template with `input` and then `statements` interpolated. -/
def generate_verdicts (input : String) (statements : String) : String :=
  verdPreA ++ (verdInstr ++ (verdPreB ++ (input ++ (verdMid ++ (statements ++ verdSuffix)))))

/-- `AnswerRelevancyTemplate.generate_reason`: the reason-composition prompt is
the fixed template with `score` (a float, rendered to text), the list
`irrelevant_statements` (rendered as Python renders a list in an f-string) and
`input` interpolated. -/
def generate_reason (irrelevant_statements : List String) (input : String) (score : Float) : String :=
  reasPreA ++ (reasInstr ++ (reasPreB ++ (toString score ++
    (reasMid1 ++ (pyReprList irrelevant_statements ++ (reasMid2 ++ (input ++ reasSuffix)))))))

end AnswerRelevancyTemplate

/-- Modelled from the spec: the Verdict data model of §3 and §9 — the relevance
judgment for one statement, a closed three-way enumeration (mirroring the judge
labels "yes"/"idk"/"no"), where a justification is present exactly on the
irrelevant case, making the "reason required iff irrelevant" invariant hold by
construction.  The verdict/score pipeline code is not among the staged source
files; only the prompt templates are. -/
inductive Verdict where
  | relevant : Verdict
  | ambiguous : Verdict
  | irrelevant (reason : String) : Verdict
deriving DecidableEq

/-- The judge-facing label of a verdict: "yes", "idk" or "no". -/
def Verdict.label : Verdict → String
  | .relevant => "yes"
  | .ambiguous => "idk"
  | .irrelevant _ => "no"

/-- The optional reason attached to a verdict. -/
def Verdict.reasonOf : Verdict → Option String
  | .irrelevant r => some r
  | _ => none

/-- Whether a verdict is the irrelevant ("no") one. -/
def Verdict.isIrrelevant : Verdict → Bool
  | .irrelevant _ => true
  | _ => false

/-- Modelled from the spec: the Score Aggregator of §4.3 — the relevancy score
of a verdict list is the count of verdicts not labeled irrelevant divided by
the total count, and 1 for the empty list (the explicit no-division-by-zero
special case).  Exact rational arithmetic stands in for the float the source
computes.  The aggregator's code is not among the staged source files. -/
def calculateScore (verdicts : List Verdict) : ℚ :=
  if verdicts.length = 0 then 1
  else (verdicts.countP fun v => !(Verdict.isIrrelevant v)) / (verdicts.length : ℚ)

/-- Modelled from the spec: the error taxonomy of §7 for the Verdict
Classifier — a verdict count differing from the statement count is a distinct
cardinality-mismatch evaluation failure. -/
inductive EvalError where
  | cardinalityMismatch (expected : Nat) (actual : Nat) : EvalError
deriving DecidableEq

/-- Modelled from the spec: the Verdict Classifier contract of §4.2 and §7 —
the verdict list the external judge returns is accepted only when its length
equals the statement list's length; otherwise a cardinality-mismatch failure
is surfaced, and the verdicts are never truncated or padded.  The classifier's
code is not among the staged source files. -/
def classifyVerdicts (statements : List String) (judged : List Verdict) :
    Except EvalError (List Verdict) :=
  if judged.length = statements.length then Except.ok judged
  else Except.error (EvalError.cardinalityMismatch statements.length judged.length)

theorem string_append_empty (s : String) : s ++ "" = s := by
  cases s with
  | mk d =>
    show String.mk (d ++ []) = String.mk d
    rw [List.append_nil]

theorem string_length_append (a b : String) : (a ++ b).length = a.length + b.length := by
  cases a with
  | mk da =>
    cases b with
    | mk db =>
      show (da ++ db).length = da.length + db.length
      exact List.length_append da db

theorem countP_not_add_countP {α : Type} (p : α → Bool) (l : List α) :
    l.countP (fun a => !(p a)) + l.countP p = l.length := by
  induction l with
  | nil => rfl
  | cons a t ih =>
    simp only [List.countP_cons]
    cases h : p a <;> simp [h] <;> omega

open AnswerRelevancyTemplate

/-- C1: for every non-empty verdict list of length n with k verdicts labeled
irrelevant, the Score Aggregator returns (n - k) / n — the count of verdicts
labeled relevant or ambiguous divided by the total verdict count. -/
theorem calculateScore_eq_fraction (vs : List Verdict) (h : 0 < vs.length) :
    calculateScore vs =
      ((vs.length - vs.countP Verdict.isIrrelevant : ℕ) : ℚ) / (vs.length : ℚ) := by
  have hne : vs.length ≠ 0 := Nat.pos_iff_ne_zero.mp h
  unfold calculateScore
  rw [if_neg hne]
  have hc : vs.countP (fun v => !(Verdict.isIrrelevant v)) =
      vs.length - vs.countP Verdict.isIrrelevant := by
    have hlen := countP_not_add_countP Verdict.isIrrelevant vs
    omega
  rw [hc]

/-- Witness for C1 at the concrete list [relevant, relevant, irrelevant]:
n = 3, k = 1, score = 2/3. -/
theorem calculateScore_eq_fraction_witness :
    0 < ([Verdict.relevant, Verdict.relevant, Verdict.irrelevant "off topic"] : List Verdict).length ∧
    calculateScore [Verdict.relevant, Verdict.relevant, Verdict.irrelevant "off topic"] =
      ((([Verdict.relevant, Verdict.relevant, Verdict.irrelevant "off topic"] : List Verdict).length -
          ([Verdict.relevant, Verdict.relevant,
            Verdict.irrelevant "off topic"] : List Verdict).countP Verdict.isIrrelevant : ℕ) : ℚ) /
        (([Verdict.relevant, Verdict.relevant,
            Verdict.irrelevant "off topic"] : List Verdict).length : ℚ) :=
  ⟨by decide, calculateScore_eq_fraction _ (by decide)⟩

/-- C2: the Score Aggregator returns exactly 1 on the empty verdict list, and
the division branch is only ever taken with a non-zero denominator. -/
theorem calculateScore_empty :
    calculateScore [] = 1 ∧
    ∀ vs : List Verdict, calculateScore vs = 1 ∨ (vs.length : ℚ) ≠ 0 := by
  constructor
  · simp [calculateScore]
  · intro vs
    cases vs with
    | nil => exact Or.inl (by simp [calculateScore])
    | cons a l => exact Or.inr (Nat.cast_ne_zero.mpr (Nat.succ_ne_zero _))

/-- C3: when the judge's verdict list length differs from the statement list
length, the Verdict Classifier surfaces a cardinality-mismatch failure and
never returns a success; and any successful classification returns the judged
verdicts unchanged (no truncation or padding), with matching length. -/
theorem classifyVerdicts_mismatch (stmts : List String) (vs : List Verdict)
    (h : vs.length ≠ stmts.length) :
    classifyVerdicts stmts vs =
        Except.error (EvalError.cardinalityMismatch stmts.length vs.length) ∧
    (∀ out : List Verdict, classifyVerdicts stmts vs ≠ Except.ok out) ∧
    (∀ (s : List String) (v out : List Verdict),
        classifyVerdicts s v = Except.ok out → out = v ∧ out.length = s.length) := by
  refine ⟨?_, ?_, ?_⟩
  · unfold classifyVerdicts
    rw [if_neg h]
  · intro out hout
    unfold classifyVerdicts at hout
    rw [if_neg h] at hout
    exact Except.noConfusion hout
  · intro s v out hout
    unfold classifyVerdicts at hout
    by_cases hl : v.length = s.length
    · rw [if_pos hl] at hout
      injection hout with h2
      exact ⟨h2.symm, h2 ▸ hl⟩
    · rw [if_neg hl] at hout
      exact Except.noConfusion hout

/-- Witness for C3 at the spec's scenario: 4 statements, 3 verdicts. -/
theorem classifyVerdicts_mismatch_witness :
    ([Verdict.relevant, Verdict.relevant, Verdict.irrelevant "r"] : List Verdict).length ≠
      (["s1", "s2", "s3", "s4"] : List String).length ∧
    classifyVerdicts ["s1", "s2", "s3", "s4"]
        [Verdict.relevant, Verdict.relevant, Verdict.irrelevant "r"] =
      Except.error (EvalError.cardinalityMismatch 4 3) :=
  ⟨by decide,
   (classifyVerdicts_mismatch ["s1", "s2", "s3", "s4"]
      [Verdict.relevant, Verdict.relevant, Verdict.irrelevant "r"] (by decide)).1⟩

/-- C5: a verdict carries a reason only when its label is "no" (irrelevant);
verdicts labeled "yes" (relevant) or "idk" (ambiguous) carry none, and every
label lies in the closed set of the three. -/
theorem verdict_label_reason (v : Verdict) :
    (∀ r : String, v.reasonOf = some r → v.label = "no") ∧
    (v.label = "yes" ∨ v.label = "idk" → v.reasonOf = none) ∧
    (v.label = "yes" ∨ v.label = "idk" ∨ v.label = "no") := by
  cases v <;> simp [Verdict.label, Verdict.reasonOf]

/-- Witness for C5: an irrelevant verdict is labeled "no"; a relevant verdict
carries no reason. -/
theorem verdict_label_reason_witness :
    (Verdict.irrelevant "pineapple").label = "no" ∧ Verdict.relevant.reasonOf = none :=
  ⟨(verdict_label_reason (Verdict.irrelevant "pineapple")).1 "pineapple" rfl,
   (verdict_label_reason Verdict.relevant).2.1 (Or.inl rfl)⟩

/-- C4: the classification prompt contains the input text, the statements
rendering, and the explicit instruction that the verdict count must be
strictly equal to the statement count. -/
theorem generate_verdicts_prompt (input statements : String) :
    containsSub (generate_verdicts input statements) input ∧
    containsSub (generate_verdicts input statements) statements ∧
    containsSub (generate_verdicts input statements) verdInstr ∧
    verdInstr =
      "the number of \x27verdicts\x27 SHOULD BE STRICTLY EQUAL to the number of \x60statements\x60" := by
  refine ⟨⟨verdPreA ++ (verdInstr ++ verdPreB), verdMid ++ (statements ++ verdSuffix), ?_⟩,
          ⟨verdPreA ++ (verdInstr ++ (verdPreB ++ (input ++ verdMid))), verdSuffix, ?_⟩,
          ⟨verdPreA, verdPreB ++ (input ++ (verdMid ++ (statements ++ verdSuffix))), ?_⟩,
          rfl⟩ <;>
    simp [generate_verdicts, string_append_assoc]

/-- C6: the extraction prompt is a fixed template with the answer text
substituted in verbatim, and it instructs the judge to return a single
"statements" key mapping to a list of strings. -/
theorem generate_statements_prompt :
    (∃ pre suf : String, ∀ actual_output : String,
        generate_statements actual_output = pre ++ (actual_output ++ suf)) ∧
    (∀ actual_output : String, containsSub (generate_statements actual_output) stmtInstr) ∧
    stmtInstr =
      "only return in valid and parseable JSON format, with the \"statements\" key mapping to a list of strings" := by
  refine ⟨⟨stmtPreA ++ (stmtInstr ++ stmtPreB), stmtSuffix, fun a => ?_⟩,
          fun a => ⟨stmtPreA, stmtPreB ++ (a ++ stmtSuffix), ?_⟩,
          rfl⟩ <;>
    simp [generate_statements, string_append_assoc]

/-- C7: the reason-composition prompt contains the rendered numeric score, the
rendered reasons list, and the input text, and instructs the judge to return a
single string field under the "reason" key. -/
theorem generate_reason_prompt (irrelevant_statements : List String) (input : String)
    (score : Float) :
    containsSub (generate_reason irrelevant_statements input score) (toString score) ∧
    containsSub (generate_reason irrelevant_statements input score)
      (pyReprList irrelevant_statements) ∧
    containsSub (generate_reason irrelevant_statements input score) input ∧
    containsSub (generate_reason irrelevant_statements input score) reasInstr ∧
    reasInstr = "only return in JSON format, with the \x27reason\x27 key providing the reason" := by
  refine ⟨⟨reasPreA ++ (reasInstr ++ reasPreB),
            reasMid1 ++ (pyReprList irrelevant_statements ++ (reasMid2 ++ (input ++ reasSuffix))),
            ?_⟩,
          ⟨reasPreA ++ (reasInstr ++ (reasPreB ++ (toString score ++ reasMid1))),
            reasMid2 ++ (input ++ reasSuffix), ?_⟩,
          ⟨reasPreA ++ (reasInstr ++ (reasPreB ++ (toString score ++
              (reasMid1 ++ (pyReprList irrelevant_statements ++ reasMid2))))), reasSuffix, ?_⟩,
          ⟨reasPreA, reasPreB ++ (toString score ++
              (reasMid1 ++ (pyReprList irrelevant_statements ++ (reasMid2 ++ (input ++ reasSuffix))))),
            ?_⟩,
          rfl⟩ <;>
    simp [generate_reason, string_append_assoc]

/-- C8: the three prompt builders are deterministic pure functions of their
arguments — equal arguments yield equal prompt strings. -/
theorem builders_deterministic :
    (∀ a₁ a₂ : String, a₁ = a₂ → generate_statements a₁ = generate_statements a₂) ∧
    (∀ i₁ i₂ s₁ s₂ : String, i₁ = i₂ → s₁ = s₂ →
        generate_verdicts i₁ s₁ = generate_verdicts i₂ s₂) ∧
    (∀ (x₁ x₂ : List String) (i₁ i₂ : String) (c₁ c₂ : Float),
        x₁ = x₂ → i₁ = i₂ → c₁ = c₂ →
        generate_reason x₁ i₁ c₁ = generate_reason x₂ i₂ c₂) :=
  ⟨fun a₁ a₂ h => by rw [h],
   fun i₁ i₂ s₁ s₂ h₁ h₂ => by rw [h₁, h₂],
   fun x₁ x₂ i₁ i₂ c₁ c₂ h₁ h₂ h₃ => by rw [h₁, h₂, h₃]⟩

/-- Witness for C8 at concrete arguments. -/
theorem builders_deterministic_witness :
    generate_statements "ans" = generate_statements "ans" ∧
    generate_verdicts "inp" "stmts" = generate_verdicts "inp" "stmts" ∧
    generate_reason ["r1"] "inp" 0.5 = generate_reason ["r1"] "inp" 0.5 :=
  ⟨builders_deterministic.1 "ans" "ans" rfl,
   builders_deterministic.2.1 "inp" "inp" "stmts" "stmts" rfl rfl,
   builders_deterministic.2.2 ["r1"] ["r1"] "inp" "inp" 0.5 0.5 rfl rfl rfl⟩

/-- C9: generate_reason embeds the reasons list as Python's string
representation of the list object — square brackets with quoted,
comma-separated elements, and "[]" when empty — not one reason per line. -/
theorem generate_reason_list_repr :
    (∀ (xs : List String) (input : String) (score : Float),
        containsSub (generate_reason xs input score) (pyReprList xs)) ∧
    pyReprList [] = "[]" ∧
    pyReprList ["reason one", "reason two"] = "[\x27reason one\x27, \x27reason two\x27]" := by
  refine ⟨fun xs input score =>
      ⟨reasPreA ++ (reasInstr ++ (reasPreB ++ (toString score ++ reasMid1))),
        reasMid2 ++ (input ++ reasSuffix), ?_⟩, ?_, ?_⟩
  · simp [generate_reason, string_append_assoc]
  · rfl
  · decide

/-- C10: generate_statements is total over arbitrary strings — the output is
always the full fixed template plus the answer (no precondition is checked),
and at the empty answer text the prompt still carries the instruction segment
and the trailing "JSON:" cue. -/
theorem generate_statements_total :
    (∀ s : String,
        (generate_statements s).length = (generate_statements "").length + s.length) ∧
    containsSub (generate_statements "") stmtInstr ∧
    containsSub (generate_statements "") stmtSuffix ∧
    stmtSuffix = "\n\nJSON:\n" := by
  refine ⟨fun s => ?_,
          ⟨stmtPreA, stmtPreB ++ ("" ++ stmtSuffix), ?_⟩,
          ⟨stmtPreA ++ (stmtInstr ++ stmtPreB), "", ?_⟩,
          rfl⟩
  · simp only [generate_statements, string_length_append]
    have h0 : ("" : String).length = 0 := rfl
    omega
  · simp [generate_statements, string_append_assoc]
  · simp [generate_statements, string_append_assoc, string_append_empty]
